import Mathlib

/-!
Shallow embedding of the Cilium policy rule model
(`src/pkg/policy/api/rule.go`) and of the CRD schema lifecycle
reconciler (`src/pkg/k8s/apis/cilium.io/v2/register.go`),
with theorems settling the behavioural claims about them.
-/

namespace CiliumSpec

/-! ## Policy rule model (pkg/policy/api/rule.go)

The rule variants (`IngressRule`, `EgressRule`), the endpoint selector
and labels are external collaborators: the core only stores them and
invokes the egress derivation capability.  We therefore embed `Rule`
polymorphically in those payload types, and pass the egress derivation
capability (`EgressRule.CreateDerivative`, which in Go returns
`(*EgressRule, error)`) as a function argument `derive : ER → Except E ER`,
and the predicate capability (`EgressRule.RequiresDerivative`)
as `req : ER → Bool`. -/

/-- Embeds the `Rule` struct of `pkg/policy/api/rule.go` (lines 32-65):
an endpoint selector, ordered ingress and egress lists, a label array and
a free-form description, polymorphic over the collaborator types. -/
structure Rule (ES IR ER LBL : Type) where
  EndpointSelector : ES
  Ingress : List IR
  Egress : List ER
  Labels : List LBL
  Description : String
deriving DecidableEq, Repr

variable {ES IR ER LBL E : Type}

/-- Embeds the generated `Rule.DeepCopy`: a deep copy of a Go struct is a
structurally equal value with no shared ownership; under value semantics it
is the identity on the rule's value. -/
def Rule.DeepCopy (r : Rule ES IR ER LBL) : Rule ES IR ER LBL := r

/-- Embeds the loop body of `Rule.RequiresDerivative` (rule.go lines
103-110): scan the egress list in order, returning `true` at the first
entry whose derivation capability reports `true`. -/
def requiresDerivativeLoop (req : ER → Bool) : List ER → Bool
  | [] => false
  | rule :: rest => if req rule then true else requiresDerivativeLoop req rest

/-- Embeds `Rule.RequiresDerivative` (rule.go lines 103-110): iterates over
`r.Egress` only, with early return on the first entry reporting `true`. -/
def Rule.RequiresDerivative (req : ER → Bool) (r : Rule ES IR ER LBL) : Bool :=
  requiresDerivativeLoop req r.Egress

/-- Embeds the loop of `Rule.CreateDerivative` (rule.go lines 118-124):
derive each egress entry in original order, appending successes; on the
first failing entry stop and report its error, keeping the prefix of
successfully derived entries built so far. -/
def deriveEgressList (derive : ER → Except E ER) : List ER → List ER × Option E
  | [] => ([], none)
  | egressRule :: rest =>
    match derive egressRule with
    | Except.error err => ([], some err)
    | Except.ok derivativeEgressRule =>
      let (ds, err?) := deriveEgressList derive rest
      (derivativeEgressRule :: ds, err?)

/-- Embeds `Rule.CreateDerivative` (rule.go lines 114-126): deep-copy the
receiver, clear its egress list, then repopulate it from the source's
egress entries via the derivation capability, returning at the first
failure the partially populated rule together with that error. -/
def Rule.CreateDerivative (derive : ER → Except E ER) (r : Rule ES IR ER LBL) :
    Rule ES IR ER LBL × Option E :=
  let newRule := r.DeepCopy
  match deriveEgressList derive r.Egress with
  | (newEgress, err?) => ({ newRule with Egress := newEgress }, err?)

/-! ## Schema version comparison (pkg/k8s/apis/cilium.io/v2/register.go)

The Go code parses the schema-version label with
`github.com/hashicorp/go-version` and compares it with `LessThan`.  We
embed a version as its list of numeric dotted segments; parsing accepts a
non-empty dot-separated sequence of non-empty digit runs (prerelease and
build-metadata suffixes are not modelled — no descriptor label in this
repository carries them), and `LessThan` compares segment lists
numerically, padding the shorter list with zeros. -/

/-- Embeds `CustomResourceDefinitionSchemaVersion` (register.go line 47). -/
def CustomResourceDefinitionSchemaVersion : String := "1.15"

/-- Embeds `CustomResourceDefinitionSchemaVersionKey` (register.go line 50). -/
def CustomResourceDefinitionSchemaVersionKey : String :=
  "io.cilium.k8s.crd.schema.version"

/-- Splits a character list at every dot, mirroring how go-version reads a
dotted version core. -/
def splitDots : List Char → List (List Char)
  | [] => [[]]
  | c :: cs =>
    let rest := splitDots cs
    if c = '.' then [] :: rest
    else
      match rest with
      | [] => [[c]]
      | seg :: segs => (c :: seg) :: segs

/-- Parses one dotted segment: a non-empty run of decimal digits. -/
def parseSeg (cs : List Char) : Option Nat :=
  if cs = [] then none
  else if cs.all Char.isDigit then
    some (cs.foldl (fun acc c => acc * 10 + (c.toNat - 48)) 0)
  else none

/-- Embeds `version.NewVersion` of hashicorp/go-version as used by
`needsUpdate`: a version is its list of numeric dotted segments; any other
shape is unparsable. -/
def parseVersion (s : String) : Option (List Nat) :=
  (splitDots s.data).mapM parseSeg

/-- Lexicographic comparison of two equal-length segment lists. -/
def segListLT : List Nat → List Nat → Bool
  | [], _ => false
  | _ :: _, [] => false
  | a :: as, b :: bs => if a < b then true else if b < a then false else segListLT as bs

/-- Embeds `Version.LessThan` of hashicorp/go-version on the numeric
segment lists: pad with zeros to equal length, then compare
lexicographically. -/
def versionLT (a b : List Nat) : Bool :=
  let n := max a.length b.length
  segListLT (a ++ List.replicate (n - a.length) 0) (b ++ List.replicate (n - b.length) 0)

/-- Embeds `comparableCRDSchemaVersion` (register.go lines 90-95):
the parsed form of `CustomResourceDefinitionSchemaVersion`; `version.Must`
assumes parsing succeeds, which holds here (see
`comparableCRDSchemaVersion_eq`). -/
def comparableCRDSchemaVersion : List Nat :=
  (parseVersion CustomResourceDefinitionSchemaVersion).getD []

/-! ## The stored descriptor and `needsUpdate` -/

/-- Condition types of interest to the acceptance wait
(`apiextensionsv1beta1.Established` / `NamesAccepted`); any other
condition type is ignored by the scan. -/
inductive CondType
  | established
  | namesAccepted
  | other
deriving DecidableEq, Repr

/-- Tri-state condition status (`ConditionTrue` / `ConditionFalse` /
unknown). -/
inductive CondStatus
  | ctrue
  | cfalse
  | cunknown
deriving DecidableEq, Repr

/-- One entry of `crd.Status.Conditions`: a type, a status and a
human-readable reason. -/
structure Condition where
  type : CondType
  status : CondStatus
  reason : String
deriving DecidableEq, Repr

/-- Embeds the parts of a stored `CustomResourceDefinition` that
`createUpdateCRD` and `needsUpdate` read: whether `Spec.Validation` is
non-nil, the `ObjectMeta.Labels` map (as an association list) and the
`Status.Conditions` list. -/
structure ClusterCRD where
  hasValidation : Bool
  labels : List (String × String)
  conditions : List Condition
deriving DecidableEq, Repr

/-- Embeds `needsUpdate` (register.go lines 444-461): update is needed if
the stored descriptor has no validation, or no schema-version label, or a
label that is unparsable or parses below the expected schema version. -/
def needsUpdate (clusterCRD : ClusterCRD) : Bool :=
  if clusterCRD.hasValidation = false then
    true
  else
    match clusterCRD.labels.lookup CustomResourceDefinitionSchemaVersionKey with
    | none => true
    | some v =>
      match parseVersion v with
      | none => true
      | some clusterVersion => versionLT clusterVersion comparableCRDSchemaVersion

/-! ## The store collaborator and the poll loops

`createUpdateCRD` talks to the apiextensions client at six call sites:
the initial `Get`, the `Create`, the `Get` and `Update` inside the update
poll closure, the `Get` inside the acceptance poll closure, and the
rollback `Delete`.  We model the store as an oracle giving the response of
each call site (indexed by poll iteration for the calls inside closures),
and instrument the reconciler with a trace of the operations it issues. -/

/-- Result of a `Get` call: the descriptor, a not-found error, or another
error carrying a message. -/
inductive GetResult
  | found (crd : ClusterCRD)
  | notFound
  | errored (e : String)
deriving DecidableEq, Repr

/-- Result of a `Create` call: the created descriptor, an
`AlreadyExists` error, or another error. -/
inductive CreateResult
  | created (crd : ClusterCRD)
  | alreadyExists
  | errored (e : String)
deriving DecidableEq, Repr

/-- Oracle for the store's responses, one component per call site of
`createUpdateCRD`; poll-loop call sites are indexed by iteration. -/
structure Store where
  getInitial : GetResult
  createResult : CreateResult
  getUpdatePoll : Nat → GetResult
  updateResult : Nat → Option String
  getStatusPoll : Nat → GetResult
  deleteResult : Option String

/-- Operations `createUpdateCRD` issues against the store, labelled by
call site. -/
inductive StoreOp
  | getInitial
  | create
  | getUpdatePoll
  | update
  | getStatusPoll
  | delete
deriving DecidableEq, Repr

/-- Errors surfaced by the reconciler: an error string from a client call
(a not-found error is the string the client reports), the
`wait.ErrWaitTimeout` of an exhausted poll, or the combined
rollback-failure error built by `fmt.Errorf` (register.go line 435), which
interpolates the CRD name, the delete error and the original error so
that both causes are retained. -/
inductive ReconcileErr
  | store (msg : String)
  | waitTimeout
  | deleteCombined (crdName : String) (deleteErr : String) (orig : ReconcileErr)
deriving DecidableEq, Repr

/-- Number of condition-function invocations a 60 s ceiling admits at a
500 ms interval (`wait.Poll(500*time.Millisecond, 60*time.Second, ...)`). -/
def pollSteps : Nat := 120

/-- Embeds `wait.Poll`: run the condition function at successive ticks;
a non-nil error aborts with that error, `done = true` succeeds, and an
exhausted ceiling yields `ErrWaitTimeout`.  Each step also reports the
store operations it performed, which are accumulated into the trace. -/
def waitPollAux (f : Nat → Bool × Option ReconcileErr × List StoreOp) :
    Nat → Nat → List StoreOp → Option ReconcileErr × List StoreOp
  | _, 0, acc => (some ReconcileErr.waitTimeout, acc)
  | i, fuel + 1, acc =>
    match f i with
    | (done, err?, ops) =>
      match err? with
      | some e => (some e, acc ++ ops)
      | none =>
        if done then (none, acc ++ ops)
        else waitPollAux f (i + 1) fuel (acc ++ ops)

/-- Embeds the update-poll closure (register.go lines 379-403): re-fetch
the stored descriptor (any fetch error, including not-found, aborts the
poll), re-check `needsUpdate`, and if still needed submit the desired
labels and spec as a replacement; a successful update or an
already-current descriptor finishes the poll, an update error aborts it. -/
def updatePollStep (s : Store) (i : Nat) :
    Bool × Option ReconcileErr × List StoreOp :=
  match s.getUpdatePoll i with
  | GetResult.errored e => (false, some (ReconcileErr.store e), [StoreOp.getUpdatePoll])
  | GetResult.notFound =>
    (false, some (ReconcileErr.store "not found"), [StoreOp.getUpdatePoll])
  | GetResult.found clusterCRD =>
    if needsUpdate clusterCRD then
      match s.updateResult i with
      | none => (true, none, [StoreOp.getUpdatePoll, StoreOp.update])
      | some e => (false, some (ReconcileErr.store e), [StoreOp.getUpdatePoll, StoreOp.update])
    else
      (true, none, [StoreOp.getUpdatePoll])

/-- Embeds the scan over `crd.Status.Conditions` in the acceptance-poll
closure (register.go lines 417-429): return `true` at an
`Established`/`ConditionTrue` condition; at a
`NamesAccepted`/`ConditionFalse` condition log the conflicting reason and
return `false` without scanning further (the accompanying error variable
is the nil error of the successful fetch); otherwise keep scanning, and
return `false` when the list is exhausted. -/
def scanConditions : List Condition → Bool
  | [] => false
  | cond :: rest =>
    if cond.type = CondType.established ∧ cond.status = CondStatus.ctrue then true
    else if cond.type = CondType.namesAccepted ∧ cond.status = CondStatus.cfalse then false
    else scanConditions rest

/-- Embeds the acceptance-poll closure (register.go lines 412-431): fetch
the descriptor (any fetch error aborts the poll with that error), then
scan its status conditions; the closure's error result is nil whenever
the fetch succeeded. -/
def statusPollStep (s : Store) (i : Nat) :
    Bool × Option ReconcileErr × List StoreOp :=
  match s.getStatusPoll i with
  | GetResult.errored e => (false, some (ReconcileErr.store e), [StoreOp.getStatusPoll])
  | GetResult.notFound =>
    (false, some (ReconcileErr.store "not found"), [StoreOp.getStatusPoll])
  | GetResult.found crd => (scanConditions crd.conditions, none, [StoreOp.getStatusPoll])

/-- Embeds the acceptance wait and rollback of `createUpdateCRD`
(register.go lines 412-441): poll the status conditions; on success return
nil; on failure delete the descriptor being installed and return the
original error, or, when the deletion itself fails, the combined error
of register.go line 435. -/
def acceptAndFinish (s : Store) (crdName : String) (acc : List StoreOp) :
    Option ReconcileErr × List StoreOp :=
  match waitPollAux (statusPollStep s) 0 pollSteps [] with
  | (none, ops) => (none, acc ++ ops)
  | (some e, ops) =>
    match s.deleteResult with
    | none => (some e, acc ++ ops ++ [StoreOp.delete])
    | some deleteErr =>
      (some (ReconcileErr.deleteCombined crdName deleteErr e),
        acc ++ ops ++ [StoreOp.delete])

/-- Embeds the version check and conditional update poll of
`createUpdateCRD` (register.go lines 375-408) followed by the acceptance
wait: if the fetched (or freshly created) descriptor needs update, run the
update poll, propagating its error without rollback; then run the
acceptance wait. -/
def afterFetch (s : Store) (crdName : String) (clusterCRD : ClusterCRD)
    (acc : List StoreOp) : Option ReconcileErr × List StoreOp :=
  if needsUpdate clusterCRD then
    match waitPollAux (updatePollStep s) 0 pollSteps [] with
    | (some e, ops) => (some e, acc ++ ops)
    | (none, ops) => acceptAndFinish s crdName (acc ++ ops)
  else
    acceptAndFinish s crdName acc

/-- Embeds `createUpdateCRD` (register.go lines 358-442): fetch the stored
descriptor by name; when absent, create the desired one, treating an
`AlreadyExists` response as success returned immediately; propagate any
other fetch or create error; otherwise run the version check, the
conditional update poll and the acceptance wait.  Returns the reconciler's
error result together with the trace of store operations issued. -/
def createUpdateCRD (s : Store) (crdName : String) :
    Option ReconcileErr × List StoreOp :=
  match s.getInitial with
  | GetResult.notFound =>
    match s.createResult with
    | CreateResult.alreadyExists => (none, [StoreOp.getInitial, StoreOp.create])
    | CreateResult.errored e =>
      (some (ReconcileErr.store e), [StoreOp.getInitial, StoreOp.create])
    | CreateResult.created clusterCRD =>
      afterFetch s crdName clusterCRD [StoreOp.getInitial, StoreOp.create]
  | GetResult.errored e => (some (ReconcileErr.store e), [StoreOp.getInitial])
  | GetResult.found clusterCRD => afterFetch s crdName clusterCRD [StoreOp.getInitial]

/-! ## Top-level reconciliation of the four managed kinds -/

/-- The four CRD kinds managed by `CreateCustomResourceDefinitions`. -/
inductive CRDKind
  | policy
  | endpoint
  | node
  | identity
deriving DecidableEq, Repr

/-- Modelled from the spec: the `option.IdentityAllocationModeCRD`
constant of `pkg/option` is not under `src/`; only equality of the
configured mode with it matters to `CreateCustomResourceDefinitions`. -/
def IdentityAllocationModeCRD : String := "crd"

/-- Embeds `CreateCustomResourceDefinitions` (register.go lines 122-142):
reconcile the policy, endpoint and node kinds in that order via
`createUpdateCRD` (through `createCNPCRD`, `createCEPCRD`,
`createNodeCRD`), returning the first non-nil error without attempting
the remaining kinds, and reconcile the identity kind only when the
identity-allocation mode equals `IdentityAllocationModeCRD`.  Each kind
talks to its own store; the result is paired with the list of kinds
attempted, in order. -/
def CreateCustomResourceDefinitions (identityAllocationMode : String)
    (stores : CRDKind → Store) : Option ReconcileErr × List CRDKind :=
  match (createUpdateCRD (stores CRDKind.policy) "CiliumNetworkPolicy/v2").1 with
  | some e => (some e, [CRDKind.policy])
  | none =>
    match (createUpdateCRD (stores CRDKind.endpoint) "v2.CiliumEndpoint").1 with
    | some e => (some e, [CRDKind.policy, CRDKind.endpoint])
    | none =>
      match (createUpdateCRD (stores CRDKind.node) "v2.CiliumNode").1 with
      | some e => (some e, [CRDKind.policy, CRDKind.endpoint, CRDKind.node])
      | none =>
        if identityAllocationMode = IdentityAllocationModeCRD then
          match (createUpdateCRD (stores CRDKind.identity) "v2.CiliumIdentity").1 with
          | some e =>
            (some e, [CRDKind.policy, CRDKind.endpoint, CRDKind.node, CRDKind.identity])
          | none =>
            (none, [CRDKind.policy, CRDKind.endpoint, CRDKind.node, CRDKind.identity])
        else
          (none, [CRDKind.policy, CRDKind.endpoint, CRDKind.node])

/-! ## Concrete sample values used to evaluate the model -/

/-- Sample derivation capability: even payloads derive to their
successor, odd payloads fail with the error `"odd"`. -/
def deriveEven (n : Nat) : Except String Nat :=
  if n % 2 = 0 then Except.ok (n + 1) else Except.error "odd"

/-- Sample requires-derivative capability: payloads of at least 10
report that they require a derivative. -/
def reqBig (n : Nat) : Bool := decide (10 ≤ n)

/-- Sample rule whose egress list has two deriving entries, then a
failing entry, then a further entry. -/
def sampleRule : Rule String String Nat String :=
  { EndpointSelector := "app=foo"
    Ingress := ["allow-from-bar"]
    Egress := [2, 4, 3, 8]
    Labels := ["k8s:policy"]
    Description := "sample rule" }

/-- Sample rule whose single egress entry always fails derivation. -/
def failRule : Rule String String Nat String :=
  { EndpointSelector := "app=foo"
    Ingress := ["allow-from-bar"]
    Egress := [3]
    Labels := ["k8s:policy"]
    Description := "always failing rule" }

/-- Sample rule with one egress entry requiring a derivative. -/
def ruleReq : Rule String String Nat String :=
  { EndpointSelector := "app=foo"
    Ingress := []
    Egress := [1, 12]
    Labels := []
    Description := "" }

/-- Sample rule with an empty egress list. -/
def ruleNoEgress : Rule String String Nat String :=
  { EndpointSelector := "app=foo"
    Ingress := ["allow-from-bar"]
    Egress := []
    Labels := []
    Description := "" }

/-- A stored descriptor that is current (validation present, schema
version label at the expected version) and established. -/
def convergedCRD : ClusterCRD :=
  { hasValidation := true
    labels := [(CustomResourceDefinitionSchemaVersionKey, "1.15")]
    conditions := [{ type := CondType.established, status := CondStatus.ctrue, reason := "" }] }

/-- A stored descriptor that is current but reports a name conflict:
`NamesAccepted` is false with reason `"conflict"`. -/
def conflictCRD : ClusterCRD :=
  { hasValidation := true
    labels := [(CustomResourceDefinitionSchemaVersionKey, "1.15")]
    conditions :=
      [{ type := CondType.namesAccepted, status := CondStatus.cfalse, reason := "conflict" }] }

/-- A store already converged: the descriptor is found, current and
established on the first status poll. -/
def storeConverged : Store :=
  { getInitial := GetResult.found convergedCRD
    createResult := CreateResult.errored "unused"
    getUpdatePoll := fun _ => GetResult.found convergedCRD
    updateResult := fun _ => none
    getStatusPoll := fun _ => GetResult.found convergedCRD
    deleteResult := none }

/-- A store in the concurrent-create race: the descriptor is absent on
the initial fetch and the create reports `AlreadyExists`; status polls
would succeed if they were issued. -/
def storeRace : Store :=
  { getInitial := GetResult.notFound
    createResult := CreateResult.alreadyExists
    getUpdatePoll := fun _ => GetResult.found convergedCRD
    updateResult := fun _ => none
    getStatusPoll := fun _ => GetResult.found convergedCRD
    deleteResult := none }

/-- A store whose every acceptance-status poll reports the name
conflict descriptor; deletion succeeds. -/
def storeConflict : Store :=
  { getInitial := GetResult.found conflictCRD
    createResult := CreateResult.errored "unused"
    getUpdatePoll := fun _ => GetResult.found conflictCRD
    updateResult := fun _ => none
    getStatusPoll := fun _ => GetResult.found conflictCRD
    deleteResult := none }

/-- A store whose acceptance-status polls fail with a fetch error and
whose rollback deletion also fails. -/
def storeStatusFail : Store :=
  { getInitial := GetResult.found convergedCRD
    createResult := CreateResult.errored "unused"
    getUpdatePoll := fun _ => GetResult.found convergedCRD
    updateResult := fun _ => none
    getStatusPoll := fun _ => GetResult.errored "boom"
    deleteResult := some "denied" }

/-- A store whose initial fetch fails outright. -/
def storeFailFast : Store :=
  { getInitial := GetResult.errored "boom"
    createResult := CreateResult.errored "unused"
    getUpdatePoll := fun _ => GetResult.notFound
    updateResult := fun _ => none
    getStatusPoll := fun _ => GetResult.notFound
    deleteResult := none }

/-- Per-kind stores: the policy store is converged, every other kind's
store fails its initial fetch. -/
def sampleStores : CRDKind → Store
  | CRDKind.policy => storeConverged
  | _ => storeFailFast

/-! ## Helper lemmas -/

lemma createDerivative_eq (derive : ER → Except E ER) (r : Rule ES IR ER LBL) :
    r.CreateDerivative derive =
      ({ r with Egress := (deriveEgressList derive r.Egress).1 },
        (deriveEgressList derive r.Egress).2) := by
  unfold Rule.CreateDerivative Rule.DeepCopy
  rcases h : deriveEgressList derive r.Egress with ⟨l, e⟩
  simp [h]

lemma deriveEgressList_ok_front_error (derive : ER → Except E ER)
    (pre post : List ER) (e : ER) (msg : E)
    (hok : ∀ x ∈ pre, ∃ y, derive x = Except.ok y)
    (herr : derive e = Except.error msg) :
    deriveEgressList derive (pre ++ e :: post) =
      (pre.filterMap (fun x => (derive x).toOption), some msg) := by
  induction pre with
  | nil => simp [deriveEgressList, herr]
  | cons a as ih =>
    obtain ⟨y, hy⟩ := hok a (by simp)
    have ih' := ih (fun x hx => hok x (by simp [hx]))
    simp only [List.cons_append, deriveEgressList, hy]
    rw [show as.append (e :: post) = as ++ e :: post from rfl, ih']
    simp [Except.toOption, List.filterMap_cons, hy]

lemma comparableCRDSchemaVersion_eq : comparableCRDSchemaVersion = [1, 15] := by decide

lemma requiresDerivativeLoop_eq_any (req : ER → Bool) (l : List ER) :
    requiresDerivativeLoop req l = l.any req := by
  induction l with
  | nil => rfl
  | cons a as ih => by_cases h : req a <;> simp [requiresDerivativeLoop, h, ih]

lemma waitPollAux_succ (f : Nat → Bool × Option ReconcileErr × List StoreOp)
    (i fuel : Nat) (acc : List StoreOp) :
    waitPollAux f i (fuel + 1) acc =
      match (f i).2.1 with
      | some e => (some e, acc ++ (f i).2.2)
      | none =>
        if (f i).1 then (none, acc ++ (f i).2.2)
        else waitPollAux f (i + 1) fuel (acc ++ (f i).2.2) := by
  rcases h : f i with ⟨done, err?, ops⟩
  simp [waitPollAux, h]

/-! ## Claim theorems -/

/-- C1: `CreateDerivative` does not mutate its receiver.  The embedding
of `CreateDerivative` is a pure function of the rule value, so the
receiver is structurally unchanged by the call; the derivative rule it
returns carries value-copies of the source's selector, ingress list,
labels and description (`DeepCopy` is a value copy, so no ownership is
shared between the two, for every derivation capability and every
rule). -/
theorem createDerivative_does_not_mutate_source
    (derive : ER → Except E ER) (r : Rule ES IR ER LBL) :
    (r.CreateDerivative derive).1.EndpointSelector = r.EndpointSelector ∧
    (r.CreateDerivative derive).1.Ingress = r.Ingress ∧
    (r.CreateDerivative derive).1.Labels = r.Labels ∧
    (r.CreateDerivative derive).1.Description = r.Description := by
  simp [createDerivative_eq]

/-- C2: `CreateDerivative` processes the egress entries in original
order; on the first entry whose derivation fails it returns that error
together with the partially populated rule, whose egress list holds
exactly the successful derivations of the preceding entries.  With
`pre = post = []` this gives the singleton case: one always-failing
entry yields a non-nil error and an empty derived egress list. -/
theorem createDerivative_first_error
    (derive : ER → Except E ER) (r : Rule ES IR ER LBL)
    (pre post : List ER) (e : ER) (msg : E)
    (hsplit : r.Egress = pre ++ e :: post)
    (hok : ∀ x ∈ pre, ∃ y, derive x = Except.ok y)
    (herr : derive e = Except.error msg) :
    (r.CreateDerivative derive).2 = some msg ∧
    (r.CreateDerivative derive).1.Egress =
      pre.filterMap (fun x => (derive x).toOption) := by
  simp [createDerivative_eq, hsplit,
    deriveEgressList_ok_front_error derive pre post e msg hok herr]

/-- Witness for C2 at concrete inputs: the singleton always-failing rule
returns the error `"odd"` and an empty egress list, and the four-entry
rule failing at its third entry returns the error together with the two
successfully derived entries. -/
theorem createDerivative_first_error_witness :
    ((failRule.CreateDerivative deriveEven).2 = some "odd" ∧
      (failRule.CreateDerivative deriveEven).1.Egress =
        List.filterMap (fun x => (deriveEven x).toOption) []) ∧
    ((sampleRule.CreateDerivative deriveEven).2 = some "odd" ∧
      (sampleRule.CreateDerivative deriveEven).1.Egress =
        List.filterMap (fun x => (deriveEven x).toOption) [2, 4]) :=
  ⟨createDerivative_first_error deriveEven failRule [] [] 3 "odd" rfl
      (by intro x hx; cases hx) rfl,
    createDerivative_first_error deriveEven sampleRule [2, 4] [8] 3 "odd" rfl
      (by intro x hx; fin_cases hx <;> exact ⟨_, rfl⟩) rfl⟩

/-- C9: `RequiresDerivative` is true iff some egress entry's capability
reports true; it is determined by the egress list alone (the ingress
list is never inspected), it short-circuits at a first entry reporting
true, and it is false on an empty egress list. -/
theorem requiresDerivative_spec (req : ER → Bool) :
    (∀ r : Rule ES IR ER LBL,
      r.RequiresDerivative req = true ↔ ∃ e ∈ r.Egress, req e = true) ∧
    (∀ (r : Rule ES IR ER LBL) (ing : List IR),
      Rule.RequiresDerivative req { r with Ingress := ing } = r.RequiresDerivative req) ∧
    (∀ (r : Rule ES IR ER LBL) (e : ER) (rest : List ER),
      r.Egress = e :: rest → req e = true → r.RequiresDerivative req = true) ∧
    (∀ r : Rule ES IR ER LBL, r.Egress = [] → r.RequiresDerivative req = false) := by
  refine ⟨fun r => ?_, fun r ing => ?_, fun r e rest hsplit he => ?_, fun r h => ?_⟩
  · simp [Rule.RequiresDerivative, requiresDerivativeLoop_eq_any, List.any_eq_true]
  · simp [Rule.RequiresDerivative]
  · simp [Rule.RequiresDerivative, hsplit, requiresDerivativeLoop, he]
  · simp [Rule.RequiresDerivative, h, requiresDerivativeLoop]

/-- Witness for C9 at concrete inputs: a rule with an egress entry
reporting derivation-required yields true, and a rule with an empty
egress list yields false. -/
theorem requiresDerivative_spec_witness :
    Rule.RequiresDerivative reqBig ruleReq = true ∧
    Rule.RequiresDerivative reqBig ruleNoEgress = false :=
  ⟨((requiresDerivative_spec reqBig).1 ruleReq).mpr ⟨12, by decide, by decide⟩,
    (requiresDerivative_spec reqBig).2.2.2 ruleNoEgress rfl⟩

/-- C3: `needsUpdate` returns true iff the stored descriptor has no
validation schema, or its schema-version label is absent, or the label
is unparsable, or it parses strictly below the expected schema version;
concretely, against the expected version `"1.15"`, labels `"1.14"` and
`"abc"` need update while `"1.15"` and `"1.16"` do not. -/
theorem needsUpdate_characterization :
    (∀ crd : ClusterCRD,
      needsUpdate crd = true ↔
        (crd.hasValidation = false ∨
          crd.labels.lookup CustomResourceDefinitionSchemaVersionKey = none ∨
          ∃ v, crd.labels.lookup CustomResourceDefinitionSchemaVersionKey = some v ∧
            (parseVersion v = none ∨
              ∃ cv, parseVersion v = some cv ∧
                versionLT cv comparableCRDSchemaVersion = true))) ∧
    needsUpdate ⟨true, [(CustomResourceDefinitionSchemaVersionKey, "1.14")], []⟩ = true ∧
    needsUpdate ⟨true, [(CustomResourceDefinitionSchemaVersionKey, "abc")], []⟩ = true ∧
    needsUpdate ⟨true, [(CustomResourceDefinitionSchemaVersionKey, "1.15")], []⟩ = false ∧
    needsUpdate ⟨true, [(CustomResourceDefinitionSchemaVersionKey, "1.16")], []⟩ = false ∧
    needsUpdate ⟨false, [(CustomResourceDefinitionSchemaVersionKey, "1.15")], []⟩ = true ∧
    needsUpdate ⟨true, [], []⟩ = true := by
  refine ⟨fun crd => ?_, by decide, by decide, by decide, by decide, by decide, by decide⟩
  cases hval : crd.hasValidation with
  | false => simp [needsUpdate, hval]
  | true =>
    cases hlook : crd.labels.lookup CustomResourceDefinitionSchemaVersionKey with
    | none => simp [needsUpdate, hval, hlook]
    | some v =>
      cases hp : parseVersion v with
      | none => simp [needsUpdate, hval, hlook, hp]
      | some cv => simp [needsUpdate, hval, hlook, hp]

/-- Witness for C3 at a concrete input: a stored descriptor labeled
`"0.9"` is judged as needing update, derived from the characterization. -/
theorem needsUpdate_characterization_witness :
    needsUpdate ⟨true, [(CustomResourceDefinitionSchemaVersionKey, "0.9")], []⟩ = true :=
  (needsUpdate_characterization.1 _).mpr
    (Or.inr (Or.inr ⟨"0.9", by decide, Or.inr ⟨[0, 9], by decide, by decide⟩⟩))

/-- C5: when the descriptor is absent on the initial fetch and the
subsequent create reports `AlreadyExists`, `createUpdateCRD` returns a
nil error: the conflict is recovered locally and never surfaced. -/
theorem createUpdateCRD_alreadyExists_nil
    (s : Store) (crdName : String)
    (hget : s.getInitial = GetResult.notFound)
    (hcreate : s.createResult = CreateResult.alreadyExists) :
    (createUpdateCRD s crdName).1 = none := by
  simp [createUpdateCRD, hget, hcreate]

/-- Witness for C5 at a concrete input: the racing store yields a nil
error. -/
theorem createUpdateCRD_alreadyExists_nil_witness :
    (createUpdateCRD storeRace "CiliumNetworkPolicy/v2").1 = none :=
  createUpdateCRD_alreadyExists_nil storeRace "CiliumNetworkPolicy/v2" rfl rfl

/-- C6 counterexample: at the racing store the reconciler returns nil
right after the `AlreadyExists` create response, with a trace of exactly
the initial fetch and the create — contrary to the claim, no
acceptance-status poll is issued before returning. -/
theorem alreadyExists_skips_acceptance_check :
    createUpdateCRD storeRace "v2.CiliumEndpoint" =
      (none, [StoreOp.getInitial, StoreOp.create]) ∧
    StoreOp.getStatusPoll ∉ (createUpdateCRD storeRace "v2.CiliumEndpoint").2 := by
  decide

/-- C6 amended: when create reports `AlreadyExists`, the reconciler
treats it as success and returns nil immediately — without proceeding to
the acceptance wait, so no status poll (and no further store operation)
is issued on that invocation. -/
theorem alreadyExists_returns_immediately
    (s : Store) (crdName : String)
    (hget : s.getInitial = GetResult.notFound)
    (hcreate : s.createResult = CreateResult.alreadyExists) :
    createUpdateCRD s crdName = (none, [StoreOp.getInitial, StoreOp.create]) := by
  simp [createUpdateCRD, hget, hcreate]

/-- Witness for the amended C6 at a concrete input. -/
theorem alreadyExists_returns_immediately_witness :
    createUpdateCRD storeRace "v2.CiliumNode" =
      (none, [StoreOp.getInitial, StoreOp.create]) :=
  alreadyExists_returns_immediately storeRace "v2.CiliumNode" rfl rfl

/-- C7: `acceptAndFinish` embeds the acceptance wait and its rollback
(register.go lines 412-441).  Whenever the acceptance wait fails with
some error, the reconciler issues a delete of the descriptor being
installed and returns a non-nil error: the original error when the
deletion succeeds, and otherwise the combined error value that carries
both the deletion failure and the original failure, so neither cause is
dropped. -/
theorem acceptance_failure_rollback
    (s : Store) (crdName : String) (acc : List StoreOp) (e : ReconcileErr)
    (hfail : (waitPollAux (statusPollStep s) 0 pollSteps []).1 = some e) :
    StoreOp.delete ∈ (acceptAndFinish s crdName acc).2 ∧
    (acceptAndFinish s crdName acc).1.isSome = true ∧
    (s.deleteResult = none → (acceptAndFinish s crdName acc).1 = some e) ∧
    (∀ de, s.deleteResult = some de →
      (acceptAndFinish s crdName acc).1 =
        some (ReconcileErr.deleteCombined crdName de e)) := by
  rcases hpoll : waitPollAux (statusPollStep s) 0 pollSteps [] with ⟨err?, ops⟩
  rw [hpoll] at hfail
  simp only at hfail
  subst hfail
  cases hdel : s.deleteResult with
  | none => simp [acceptAndFinish, hpoll, hdel]
  | some de => simp [acceptAndFinish, hpoll, hdel]

/-- Witness for C7 at a concrete input: the acceptance wait fails with
the fetch error `"boom"` and the rollback deletion fails with
`"denied"`; the delete is issued and the returned error combines both
causes. -/
theorem acceptance_failure_rollback_witness :
    StoreOp.delete ∈ (acceptAndFinish storeStatusFail "v2.CiliumNode" [StoreOp.getInitial]).2 ∧
    (acceptAndFinish storeStatusFail "v2.CiliumNode" [StoreOp.getInitial]).1 =
      some (ReconcileErr.deleteCombined "v2.CiliumNode" "denied" (ReconcileErr.store "boom")) := by
  have h := acceptance_failure_rollback storeStatusFail "v2.CiliumNode" [StoreOp.getInitial]
    (ReconcileErr.store "boom") (by decide)
  exact ⟨h.1, h.2.2.2 "denied" rfl⟩

/-- C8: reconciliation is idempotent when already converged: against a
store whose descriptor is found, needs no update, and reports an
accepted status on the first poll, `createUpdateCRD` returns nil and its
trace is exactly the one initial fetch followed by the one
acceptance-status poll — zero create, update or delete operations are
issued. -/
theorem createUpdateCRD_idempotent_on_converged
    (s : Store) (crdName : String) (crd0 crd1 : ClusterCRD)
    (hget : s.getInitial = GetResult.found crd0)
    (hnoupd : needsUpdate crd0 = false)
    (hstatus : s.getStatusPoll 0 = GetResult.found crd1)
    (hestablished : scanConditions crd1.conditions = true) :
    createUpdateCRD s crdName = (none, [StoreOp.getInitial, StoreOp.getStatusPoll]) := by
  have hstep : statusPollStep s 0 = (true, none, [StoreOp.getStatusPoll]) := by
    simp [statusPollStep, hstatus, hestablished]
  have hpoll : waitPollAux (statusPollStep s) 0 pollSteps [] =
      (none, [StoreOp.getStatusPoll]) := by
    rw [show pollSteps = 119 + 1 from rfl, waitPollAux_succ, hstep]
    simp
  simp [createUpdateCRD, hget, afterFetch, hnoupd, acceptAndFinish, hpoll]

/-- Witness for C8 at a concrete input: the converged store yields a nil
error with exactly one fetch and one status poll. -/
theorem createUpdateCRD_idempotent_on_converged_witness :
    createUpdateCRD storeConverged "CiliumNetworkPolicy/v2" =
      (none, [StoreOp.getInitial, StoreOp.getStatusPoll]) :=
  createUpdateCRD_idempotent_on_converged storeConverged "CiliumNetworkPolicy/v2"
    convergedCRD convergedCRD rfl (by decide) rfl (by decide)

set_option maxRecDepth 8000 in
/-- C4 evaluated at the failing input: against a store whose every
acceptance-status poll reports `NamesAccepted` false with reason
`"conflict"`, the reconciler does not fail immediately as the claim
states: the condition scan returns not-done with a nil error (the error
built from the reason is only logged), so the reconciler keeps polling
through the full 60 s ceiling — 120 status polls — and then returns the
generic wait timeout error, which does not mention the reason. -/
theorem namesAccepted_false_polls_full_ceiling :
    (createUpdateCRD storeConflict "CiliumNetworkPolicy/v2").1 =
      some ReconcileErr.waitTimeout ∧
    (createUpdateCRD storeConflict "CiliumNetworkPolicy/v2").2.count
      StoreOp.getStatusPoll = 120 ∧
    scanConditions conflictCRD.conditions = false := by
  decide

/-- C10: `CreateCustomResourceDefinitions` reconciles the kinds
sequentially in the fixed order policy, endpoint, node, identity,
returning the first non-nil error without attempting the remaining
kinds, and the identity kind is attempted only when the
identity-allocation mode is the CRD mode. -/
theorem createCRDs_sequencing (mode : String) (stores : CRDKind → Store) :
    (∀ e, (createUpdateCRD (stores CRDKind.policy) "CiliumNetworkPolicy/v2").1 = some e →
      CreateCustomResourceDefinitions mode stores = (some e, [CRDKind.policy])) ∧
    (∀ e, (createUpdateCRD (stores CRDKind.policy) "CiliumNetworkPolicy/v2").1 = none →
      (createUpdateCRD (stores CRDKind.endpoint) "v2.CiliumEndpoint").1 = some e →
      CreateCustomResourceDefinitions mode stores =
        (some e, [CRDKind.policy, CRDKind.endpoint])) ∧
    (∀ e, (createUpdateCRD (stores CRDKind.policy) "CiliumNetworkPolicy/v2").1 = none →
      (createUpdateCRD (stores CRDKind.endpoint) "v2.CiliumEndpoint").1 = none →
      (createUpdateCRD (stores CRDKind.node) "v2.CiliumNode").1 = some e →
      CreateCustomResourceDefinitions mode stores =
        (some e, [CRDKind.policy, CRDKind.endpoint, CRDKind.node])) ∧
    (∀ e, mode = IdentityAllocationModeCRD →
      (createUpdateCRD (stores CRDKind.policy) "CiliumNetworkPolicy/v2").1 = none →
      (createUpdateCRD (stores CRDKind.endpoint) "v2.CiliumEndpoint").1 = none →
      (createUpdateCRD (stores CRDKind.node) "v2.CiliumNode").1 = none →
      (createUpdateCRD (stores CRDKind.identity) "v2.CiliumIdentity").1 = some e →
      CreateCustomResourceDefinitions mode stores =
        (some e, [CRDKind.policy, CRDKind.endpoint, CRDKind.node, CRDKind.identity])) ∧
    (mode = IdentityAllocationModeCRD →
      (createUpdateCRD (stores CRDKind.policy) "CiliumNetworkPolicy/v2").1 = none →
      (createUpdateCRD (stores CRDKind.endpoint) "v2.CiliumEndpoint").1 = none →
      (createUpdateCRD (stores CRDKind.node) "v2.CiliumNode").1 = none →
      (createUpdateCRD (stores CRDKind.identity) "v2.CiliumIdentity").1 = none →
      CreateCustomResourceDefinitions mode stores =
        (none, [CRDKind.policy, CRDKind.endpoint, CRDKind.node, CRDKind.identity])) ∧
    (mode ≠ IdentityAllocationModeCRD →
      (createUpdateCRD (stores CRDKind.policy) "CiliumNetworkPolicy/v2").1 = none →
      (createUpdateCRD (stores CRDKind.endpoint) "v2.CiliumEndpoint").1 = none →
      (createUpdateCRD (stores CRDKind.node) "v2.CiliumNode").1 = none →
      CreateCustomResourceDefinitions mode stores =
        (none, [CRDKind.policy, CRDKind.endpoint, CRDKind.node])) ∧
    (mode ≠ IdentityAllocationModeCRD →
      CRDKind.identity ∉ (CreateCustomResourceDefinitions mode stores).2) := by
  refine ⟨fun e h1 => ?_, fun e h1 h2 => ?_, fun e h1 h2 h3 => ?_,
    fun e hm h1 h2 h3 h4 => ?_, fun hm h1 h2 h3 h4 => ?_, fun hm h1 h2 h3 => ?_,
    fun hm => ?_⟩
  · simp [CreateCustomResourceDefinitions, h1]
  · simp [CreateCustomResourceDefinitions, h1, h2]
  · simp [CreateCustomResourceDefinitions, h1, h2, h3]
  · simp [CreateCustomResourceDefinitions, hm, h1, h2, h3, h4]
  · simp [CreateCustomResourceDefinitions, hm, h1, h2, h3, h4]
  · simp [CreateCustomResourceDefinitions, hm, h1, h2, h3]
  · unfold CreateCustomResourceDefinitions
    rcases h1 : (createUpdateCRD (stores CRDKind.policy) "CiliumNetworkPolicy/v2").1 with _ | e1
    · rcases h2 : (createUpdateCRD (stores CRDKind.endpoint) "v2.CiliumEndpoint").1 with _ | e2
      · rcases h3 : (createUpdateCRD (stores CRDKind.node) "v2.CiliumNode").1 with _ | e3
        · simp [hm]
        · simp
      · simp
    · simp

/-- Witness for C10 at a concrete input: with a converged policy store
and an endpoint store failing its initial fetch, reconciliation in mode
`"kvstore"` stops at the endpoint kind with its error. -/
theorem createCRDs_sequencing_witness :
    CreateCustomResourceDefinitions "kvstore" sampleStores =
      (some (ReconcileErr.store "boom"), [CRDKind.policy, CRDKind.endpoint]) :=
  (createCRDs_sequencing "kvstore" sampleStores).2.1 (ReconcileErr.store "boom")
    (by decide) (by decide)

end CiliumSpec
